import Mathlib

/-!
Verification development for the getdemos-js HTTP client
(`src/getdemos.ts`).  The client composes an HTTP transport with a
request interceptor (bearer-token injection from a pluggable token
store), a response interceptor (success classification on HTTP status
and the payload-level `ok` flag), a `doLogin` operation persisting the
returned token, and a `checkUpdate` operation comparing semantic
versions.  Pure and state-passing Lean definitions shallowly embed the
TypeScript source; the external `compare-versions` dependency and the
transport's interceptor dispatch are modelled from the specification.
-/

/-! ## Token storage (`DefaultStorage`, lines 51-61) -/

/-- The browser-like key-value slot backing `DefaultStorage`
(`localStorage`): a total map from keys to optionally present values. -/
def LocalStorage : Type := String → Option String

/-- `localStorage.getItem`. -/
def getItem (st : LocalStorage) (key : String) : Option String := st key

/-- `localStorage.setItem`. -/
def setItem (st : LocalStorage) (key value : String) : LocalStorage :=
  fun k => if k = key then some value else st k

/-- The fixed storage key (`GETDEMOS_TOKEN = 'getdemos-token'`). -/
def GETDEMOS_TOKEN : String := "getdemos-token"

/-- `DefaultStorage.get`: read the token slot. -/
def DefaultStorage.get (st : LocalStorage) : Option String :=
  getItem st GETDEMOS_TOKEN

/-- `DefaultStorage.set`: write the token slot. -/
def DefaultStorage.set (st : LocalStorage) (token : String) : LocalStorage :=
  setItem st GETDEMOS_TOKEN token

/-- A storage with nothing stored yet (absent at startup). -/
def emptyStorage : LocalStorage := fun _ => none

/-! ## Request interceptor (lines 71-88) -/

/-- The slice of an outgoing request configuration the interceptor
reads and writes: the target URL and the `Authorization` header
(absent when not set). -/
structure RequestConfig where
  url : String
  authorization : Option String
  deriving DecidableEq

/-- The request configuration a resource method passes to the
transport: the URL only; no resource method of the client sets an
`Authorization` header (lines 118-233). -/
def initialRequest (url : String) : RequestConfig :=
  { url := url, authorization := none }

/-- The request interceptor's fulfilled handler (lines 72-79): given
the token resolved from the store, attach `Authorization: Bearer
<token>` when the token is non-null, else leave the request
unchanged. -/
def interceptRequest (token : Option String) (configs : RequestConfig) :
    RequestConfig :=
  match token with
  | some t => { configs with authorization := some ("Bearer " ++ t) }
  | none => configs

/-- The rejection payload type of the request pipeline: the `{ok:
false, msg: error}` envelope built by the request interceptor's
rejection handler, with `msg` carrying the underlying cause. -/
inductive RequestRejection (C : Type) where
  | envelope (ok : Bool) (msg : C)
  deriving DecidableEq

/-- The request interceptor's rejection handler (lines 80-87):
wrap the error as `{ok: false, msg: error}`. -/
def requestErrorHandler {C : Type} (error : C) : RequestRejection C :=
  RequestRejection.envelope false error

/-- Modelled from the spec: the transport's request-side dispatch is
part of the axios dependency, not of this repository.  Per the spec,
the pipeline first resolves the token from the store; on store failure
the request is not sent and the call fails through the registered
rejection handler carrying the underlying cause; on success the
fulfilled handler (token injection) produces the request to send. -/
def prepareRequest {C : Type} (tokenResult : Except C (Option String))
    (configs : RequestConfig) : Except (RequestRejection C) RequestConfig :=
  match tokenResult with
  | Except.error cause => Except.error (requestErrorHandler cause)
  | Except.ok token => Except.ok (interceptRequest token configs)

/-! ## Response interceptor (lines 90-111) -/

/-- The `ApiMessage<T>` envelope (lines 8-13).  The `ok` flag is an
`Option Bool` so that an absent flag (falsy in the source's
`if (response.data.ok)` check) is representable. -/
structure ApiMessage (T : Type) where
  ok : Option Bool
  code : Int
  msg : String
  data : T
  deriving DecidableEq

/-- The slice of an HTTP response the interceptor reads: status code
and decoded body. -/
structure Response (T : Type) where
  status : Nat
  data : ApiMessage T
  deriving DecidableEq

/-- The literal message of the generic 500 rejection (line 97). -/
def serverInternalErrorMsg : String := "服务器内部错误"

/-- The `{ok, msg}` object built for the status-500 rejection
(lines 95-98). -/
structure ErrorEnvelope where
  ok : Bool
  msg : String
  deriving DecidableEq

/-- A rejection of the response pipeline: either the generic error
envelope (status 500) or the entire response object (body `ok` not
true). -/
inductive Rejection (T : Type) where
  | envelope (e : ErrorEnvelope)
  | response (r : Response T)
  deriving DecidableEq

/-- The response interceptor's fulfilled handler (lines 91-105):
status 500 rejects with the generic envelope discarding the body; any
other status resolves with the full response exactly when the body's
`ok` flag is true, and otherwise rejects with the entire response. -/
def interceptResponse {T : Type} (response : Response T) :
    Except (Rejection T) (Response T) :=
  if response.status = 500 then
    Except.error (Rejection.envelope { ok := false, msg := serverInternalErrorMsg })
  else if response.data.ok = some true then
    Except.ok response
  else
    Except.error (Rejection.response response)

/-! ## doLogin (lines 118-124)

`doLogin` posts to `/api/auth`; the transport delivers a raw response
which first passes through the response interceptor.  If the
interceptor rejects, the `await` in `doLogin` rethrows and no storage
write happens.  Otherwise, when the body's `ok` flag is true the token
in `data` is persisted before the response is returned. -/

/-- `doLogin`, as the state transformer induced by the raw response the
transport delivers: returns the call's outcome together with the
storage state after the call. -/
def doLogin (st : LocalStorage) (response : Response String) :
    Except (Rejection String) (Response String) × LocalStorage :=
  match interceptResponse response with
  | Except.error e => (Except.error e, st)
  | Except.ok res =>
    if res.data.ok = some true then
      (Except.ok res, DefaultStorage.set st res.data.data)
    else
      (Except.ok res, st)

/-! ## Version comparison and checkUpdate (lines 199-209) -/

/-- Split a character list on the dot separator. -/
def splitDots : List Char → List (List Char)
  | [] => [[]]
  | c :: cs =>
    if c = '.' then [] :: splitDots cs
    else
      match splitDots cs with
      | [] => [[c]]
      | seg :: segs => (c :: seg) :: segs

/-- Parse one dotted component: a nonempty all-digit run, read as a
decimal number. -/
def parseSeg (cs : List Char) : Option Nat :=
  if cs = [] then none
  else if cs.all Char.isDigit then
    some (cs.foldl (fun acc c => acc * 10 + (c.toNat - 48)) 0)
  else none

/-- Modelled from the spec: the external `compare-versions` dependency
is not part of this repository.  Per the spec, a version string is a
dotted sequence of numeric components; a string that does not parse as
such is malformed. -/
def parseVersion (s : String) : Option (List Nat) :=
  (splitDots s.toList).mapM parseSeg

/-- Modelled from the spec: numeric comparison per dotted component,
missing components treated as zero.  Returns `1`, `0`, or `-1`. -/
def compareSegs : List Nat → List Nat → Int
  | [], ys => if ys.all (fun y => y == 0) then 0 else -1
  | x :: xs, [] => if 0 < x then 1 else compareSegs xs []
  | x :: xs, y :: ys =>
    if x < y then -1 else if y < x then 1 else compareSegs xs ys

/-- Modelled from the spec: the external `compare-versions` comparator.
A malformed argument makes the comparison fail wrapping the offending
string; on two well-formed versions it returns the total-order
comparison result. -/
def compareVersions (v1 v2 : String) : Except String Int :=
  match parseVersion v1 with
  | none => Except.error v1
  | some xs =>
    match parseVersion v2 with
    | none => Except.error v2
    | some ys => Except.ok (compareSegs xs ys)

/-- The `AppRelease` model (declared in `getdemos.models`, outside
`src/`); `checkUpdate` reads only its semver-like `version` field. -/
structure Release where
  version : String
  deriving DecidableEq

/-- The `CheckUpdateResult` shape `{ latest?: bool, release?: Release }`:
both fields start absent (line 201 builds `{}`). -/
structure CheckUpdateResult where
  latest : Option Bool := none
  release : Option Release := none
  deriving DecidableEq

/-- The failure of `checkUpdate` on a malformed version string: the
comparator's error wrapping the offending string, surfaced to the
caller. -/
inductive VersionError where
  | versionParseError (offending : String)
  deriving DecidableEq

/-- `checkUpdate` (lines 199-209), given the successfully fetched
latest release: when the comparison of the release's version against
`versionName` yields `1` the result is `{latest: false, release}`,
otherwise `{latest: true}`; a comparator failure is surfaced to the
caller.  The `versionCode` parameter is declared (line 199) but never
read. -/
def checkUpdate (latestRelease : Release) (versionName : String)
    (versionCode : Option String) : Except VersionError CheckUpdateResult :=
  match compareVersions latestRelease.version versionName with
  | Except.error s => Except.error (VersionError.versionParseError s)
  | Except.ok c =>
    if c = 1 then
      Except.ok { latest := some false, release := some latestRelease }
    else
      Except.ok { latest := some true, release := none }

/-! ## The semver strict order, stated independently of the comparator -/

/-- Component `i` of a parsed version, `0` when missing. -/
def comp (xs : List Nat) (i : Nat) : Nat := xs.getD i 0

/-- `xs` is strictly greater than `ys` in semantic-version order:
at the first differing component `xs` is larger (missing components
count as zero). -/
def semverGt (xs ys : List Nat) : Prop :=
  ∃ i, comp ys i < comp xs i ∧ ∀ j, j < i → comp xs j = comp ys j

/-! ## Helper lemmas on the semver order -/

theorem comp_nil (i : Nat) : comp [] i = 0 := by
  simp [comp]

theorem comp_cons_zero (x : Nat) (xs : List Nat) : comp (x :: xs) 0 = x := rfl

theorem comp_cons_succ (x : Nat) (xs : List Nat) (i : Nat) :
    comp (x :: xs) (i + 1) = comp xs i := rfl

theorem not_semverGt_nil (ys : List Nat) : ¬ semverGt [] ys := by
  rintro ⟨i, hlt, -⟩
  rw [comp_nil] at hlt
  exact Nat.not_lt_zero _ hlt

theorem semverGt_cons_cons (x : Nat) (xs ys : List Nat) :
    semverGt (x :: xs) (x :: ys) ↔ semverGt xs ys := by
  constructor
  · rintro ⟨i, hlt, hf⟩
    cases i with
    | zero =>
      rw [comp_cons_zero, comp_cons_zero] at hlt
      exact absurd hlt (Nat.lt_irrefl x)
    | succ i =>
      refine ⟨i, ?_, ?_⟩
      · rw [comp_cons_succ, comp_cons_succ] at hlt
        exact hlt
      · intro j hj
        have h := hf (j + 1) (Nat.succ_lt_succ hj)
        rw [comp_cons_succ, comp_cons_succ] at h
        exact h
  · rintro ⟨i, hlt, hf⟩
    refine ⟨i + 1, ?_, ?_⟩
    · rw [comp_cons_succ, comp_cons_succ]
      exact hlt
    · intro j hj
      cases j with
      | zero => rfl
      | succ j =>
        rw [comp_cons_succ, comp_cons_succ]
        exact hf j (Nat.lt_of_succ_lt_succ hj)

theorem semverGt_zero_cons_nil (xs : List Nat) :
    semverGt (0 :: xs) [] ↔ semverGt xs [] := by
  constructor
  · rintro ⟨i, hlt, hf⟩
    cases i with
    | zero =>
      rw [comp_nil, comp_cons_zero] at hlt
      exact absurd hlt (Nat.lt_irrefl 0)
    | succ i =>
      refine ⟨i, ?_, ?_⟩
      · rw [comp_nil] at hlt ⊢
        rw [comp_cons_succ] at hlt
        exact hlt
      · intro j hj
        have h := hf (j + 1) (Nat.succ_lt_succ hj)
        rw [comp_cons_succ, comp_nil] at h
        rw [comp_nil]
        exact h
  · rintro ⟨i, hlt, hf⟩
    refine ⟨i + 1, ?_, ?_⟩
    · rw [comp_nil] at hlt ⊢
      rw [comp_cons_succ]
      exact hlt
    · intro j hj
      cases j with
      | zero => rfl
      | succ j =>
        rw [comp_cons_succ, comp_nil]
        have h := hf j (Nat.lt_of_succ_lt_succ hj)
        rw [comp_nil] at h
        exact h

theorem compareSegs_eq_one_iff (xs : List Nat) :
    ∀ ys, compareSegs xs ys = 1 ↔ semverGt xs ys := by
  induction xs with
  | nil =>
    intro ys
    simp only [compareSegs]
    constructor
    · intro h
      split at h <;> exact absurd h (by decide)
    · intro h
      exact absurd h (not_semverGt_nil ys)
  | cons x xs ih =>
    intro ys
    cases ys with
    | nil =>
      simp only [compareSegs]
      by_cases hx : 0 < x
      · simp only [if_pos hx]
        constructor
        · intro _
          exact ⟨0, by simpa [comp] using hx, fun j hj => absurd hj (Nat.not_lt_zero j)⟩
        · intro _
          trivial
      · have hx0 : x = 0 := Nat.eq_zero_of_not_pos hx
        subst hx0
        simp only [if_neg hx]
        rw [ih []]
        exact (semverGt_zero_cons_nil xs).symm
    | cons y ys =>
      simp only [compareSegs]
      rcases Nat.lt_trichotomy x y with hlt | heq | hgt
      · simp only [if_pos hlt]
        constructor
        · intro h
          exact absurd h (by decide)
        · rintro ⟨i, hlti, hf⟩
          cases i with
          | zero =>
            rw [comp_cons_zero, comp_cons_zero] at hlti
            omega
          | succ i =>
            have h0 := hf 0 (Nat.zero_lt_succ i)
            rw [comp_cons_zero, comp_cons_zero] at h0
            omega
      · subst heq
        simp only [if_neg (Nat.lt_irrefl x)]
        rw [ih ys]
        exact (semverGt_cons_cons x xs ys).symm
      · simp only [if_neg (Nat.lt_asymm hgt), if_pos hgt]
        constructor
        · intro _
          exact ⟨0, by simpa [comp] using hgt, fun j hj => absurd hj (Nat.not_lt_zero j)⟩
        · intro _
          trivial

/-- Setting the token slot then reading it yields the token just set. -/
theorem get_set_eq (st : LocalStorage) (t : String) :
    DefaultStorage.get (DefaultStorage.set st t) = some t := by
  simp [DefaultStorage.get, DefaultStorage.set, getItem, setItem]

/-! ## Claim theorems -/

/-- C1: for a checkUpdate call that successfully fetched the latest
release, with both version strings well-formed: if the release's
version is strictly greater than `versionName` in semver order the
result is `{latest: false, release: latestRelease}`; otherwise
(including equality) the result is `{latest: true}` with the release
field absent. -/
theorem checkUpdate_semver_decision (latestRelease : Release) (versionName : String)
    (versionCode : Option String) (xs ys : List Nat)
    (hx : parseVersion latestRelease.version = some xs)
    (hy : parseVersion versionName = some ys) :
    (semverGt xs ys →
      checkUpdate latestRelease versionName versionCode
        = Except.ok { latest := some false, release := some latestRelease }) ∧
    (¬ semverGt xs ys →
      checkUpdate latestRelease versionName versionCode
        = Except.ok { latest := some true, release := none }) := by
  have hcv : compareVersions latestRelease.version versionName
      = Except.ok (compareSegs xs ys) := by
    unfold compareVersions
    rw [hx, hy]
  constructor
  · intro hgt
    have h1 : compareSegs xs ys = 1 := (compareSegs_eq_one_iff xs ys).mpr hgt
    simp [checkUpdate, hcv, h1]
  · intro hngt
    have h1 : compareSegs xs ys ≠ 1 := fun h => hngt ((compareSegs_eq_one_iff xs ys).mp h)
    simp [checkUpdate, hcv, h1]

/-- C1 witness: latest release 1.2.0 against current 1.0.0 yields an
update. -/
theorem checkUpdate_semver_decision_witness :
    checkUpdate { version := "1.2.0" } "1.0.0" none
      = Except.ok { latest := some false, release := some { version := "1.2.0" } } := by
  have h := checkUpdate_semver_decision { version := "1.2.0" } "1.0.0" none
    [1, 2, 0] [1, 0, 0] rfl rfl
  refine h.1 ⟨1, by decide, ?_⟩
  intro j hj
  have hj0 : j = 0 := by omega
  subst hj0
  rfl

/-- C2: a request built by a resource method (which never sets an
Authorization header itself) leaves the request interceptor with
header `Authorization: Bearer V` when the store resolves the non-null
token V, and with no Authorization header when the store resolves
null. -/
theorem requestInterceptor_bearer (token : Option String) (url : String) :
    (∀ v, token = some v →
      (interceptRequest token (initialRequest url)).authorization
        = some ("Bearer " ++ v)) ∧
    (token = none →
      (interceptRequest token (initialRequest url)).authorization = none) := by
  constructor
  · intro v hv
    subst hv
    rfl
  · intro hv
    subst hv
    rfl

/-- C2 witness at a stored token and at an absent token. -/
theorem requestInterceptor_bearer_witness :
    (interceptRequest (some "tok123") (initialRequest "/api/apps")).authorization
      = some ("Bearer " ++ "tok123") ∧
    (interceptRequest none (initialRequest "/api/apps")).authorization = none :=
  ⟨(requestInterceptor_bearer (some "tok123") "/api/apps").1 "tok123" rfl,
   (requestInterceptor_bearer none "/api/apps").2 rfl⟩

/-- C3: for a completed response with status other than 500, the call
resolves with the full response exactly when the body's ok flag is
true, and rejects with the entire response object when the flag is
false or absent. -/
theorem responseInterceptor_ok_flag {T : Type} (r : Response T) (h : r.status ≠ 500) :
    (interceptResponse r = Except.ok r ↔ r.data.ok = some true) ∧
    (r.data.ok ≠ some true →
      interceptResponse r = Except.error (Rejection.response r)) := by
  unfold interceptResponse
  rw [if_neg h]
  constructor
  · constructor
    · intro hok
      by_contra hne
      rw [if_neg hne] at hok
      exact Except.noConfusion hok
    · intro hok
      rw [if_pos hok]
  · intro hne
    rw [if_neg hne]

/-- C3 witness: an ok-true body at status 200 resolves with the full
response. -/
theorem responseInterceptor_ok_flag_witness :
    interceptResponse
        { status := 200, data := { ok := some true, code := 0, msg := "", data := "d" } }
      = Except.ok
        { status := 200, data := { ok := some true, code := 0, msg := "", data := "d" } } :=
  (responseInterceptor_ok_flag
    { status := 200, data := { ok := some true, code := 0, msg := "", data := "d" } }
    (by decide)).1.mpr rfl

/-- C4: every response with status 500 is rejected with the fixed
generic envelope; the rejection value does not contain the response
body. -/
theorem responseInterceptor_status500 {T : Type} (r : Response T) (h : r.status = 500) :
    interceptResponse r
      = Except.error (Rejection.envelope { ok := false, msg := serverInternalErrorMsg }) := by
  unfold interceptResponse
  rw [if_pos h]

/-- C4 witness: a 500 response whose body even says ok true is still
rejected with the generic envelope. -/
theorem responseInterceptor_status500_witness :
    interceptResponse
        { status := 500, data := { ok := some true, code := 7, msg := "detail", data := "body" } }
      = Except.error (Rejection.envelope { ok := false, msg := serverInternalErrorMsg }) :=
  responseInterceptor_status500
    { status := 500, data := { ok := some true, code := 7, msg := "detail", data := "body" } }
    rfl

/-- C5 as stated fails: a response whose body is ok true with data
"tok123" but whose status is 500 is rejected by the response
interceptor before doLogin can store the token, so doLogin does not
resolve and the store stays empty. -/
theorem doLogin_okTrue_status500_counterexample :
    (doLogin emptyStorage
        { status := 500, data := { ok := some true, code := 0, msg := "", data := "tok123" } }).1
      = Except.error (Rejection.envelope { ok := false, msg := serverInternalErrorMsg }) ∧
    DefaultStorage.get (doLogin emptyStorage
        { status := 500, data := { ok := some true, code := 0, msg := "", data := "tok123" } }).2
      = none := by
  constructor <;> rfl

/-- C5 (amended): for every doLogin call whose response has status
other than 500 and body ok true with data T, doLogin resolves with the
raw response and the token store afterwards holds T. -/
theorem doLogin_success_sets_token (st : LocalStorage) (r : Response String)
    (h500 : r.status ≠ 500) (hok : r.data.ok = some true) :
    (doLogin st r).1 = Except.ok r ∧
    DefaultStorage.get (doLogin st r).2 = some r.data.data := by
  have hir : interceptResponse r = Except.ok r := by
    unfold interceptResponse
    rw [if_neg h500, if_pos hok]
  unfold doLogin
  rw [hir]
  simp only [hok, if_pos]
  exact ⟨trivial, get_set_eq st r.data.data⟩

/-- C5 witness: a 200 login response with token "tok123". -/
theorem doLogin_success_sets_token_witness :
    (doLogin emptyStorage
        { status := 200, data := { ok := some true, code := 0, msg := "", data := "tok123" } }).1
      = Except.ok
        { status := 200, data := { ok := some true, code := 0, msg := "", data := "tok123" } } ∧
    DefaultStorage.get (doLogin emptyStorage
        { status := 200, data := { ok := some true, code := 0, msg := "", data := "tok123" } }).2
      = some "tok123" :=
  doLogin_success_sets_token emptyStorage
    { status := 200, data := { ok := some true, code := 0, msg := "", data := "tok123" } }
    (by decide) rfl

/-- C6: a doLogin call whose response body has ok false leaves the
token store exactly as it was; no set is performed. -/
theorem doLogin_failure_preserves_store (st : LocalStorage) (r : Response String)
    (hok : r.data.ok = some false) :
    (doLogin st r).2 = st := by
  unfold doLogin interceptResponse
  by_cases h5 : r.status = 500
  · rw [if_pos h5]
  · rw [if_neg h5, if_neg (by simp [hok])]

/-- C6 witness: an ok-false login response leaves the empty store
empty. -/
theorem doLogin_failure_preserves_store_witness :
    (doLogin emptyStorage
        { status := 200, data := { ok := some false, code := 1, msg := "err", data := "x" } }).2
      = emptyStorage :=
  doLogin_failure_preserves_store emptyStorage
    { status := 200, data := { ok := some false, code := 1, msg := "err", data := "x" } }
    rfl

/-- C7: a malformed release version string, or a malformed
versionName when the release version is well-formed, makes checkUpdate
fail with the parse error wrapping the offending string instead of
returning a result such as latest true. -/
theorem checkUpdate_malformed_version (latestRelease : Release) (versionName : String)
    (versionCode : Option String) :
    (parseVersion latestRelease.version = none →
      checkUpdate latestRelease versionName versionCode
        = Except.error (VersionError.versionParseError latestRelease.version)) ∧
    (parseVersion versionName = none → parseVersion latestRelease.version ≠ none →
      checkUpdate latestRelease versionName versionCode
        = Except.error (VersionError.versionParseError versionName)) := by
  constructor
  · intro h1
    simp [checkUpdate, compareVersions, h1]
  · intro h2 h1
    obtain ⟨xs, hxs⟩ := Option.ne_none_iff_exists.mp h1
    simp [checkUpdate, compareVersions, hxs.symm, h2]

/-- C7 witness: a malformed release version "abc" and a malformed
current version "x.y" both surface parse errors. -/
theorem checkUpdate_malformed_version_witness :
    checkUpdate { version := "abc" } "1.0.0" none
      = Except.error (VersionError.versionParseError "abc") ∧
    checkUpdate { version := "1.0.0" } "x.y" none
      = Except.error (VersionError.versionParseError "x.y") :=
  ⟨(checkUpdate_malformed_version { version := "abc" } "1.0.0" none).1 rfl,
   (checkUpdate_malformed_version { version := "1.0.0" } "x.y" none).2 rfl (by decide)⟩

/-- C8: when the token store's get fails with a cause, the request
pipeline produces no request to send and the call fails with the
preparation-error envelope carrying the underlying cause. -/
theorem requestPreparation_failure {C : Type} (cause : C) (configs : RequestConfig) :
    prepareRequest (Except.error cause) configs
      = Except.error (RequestRejection.envelope false cause) := rfl

/-- C9: after TokenStore.set(T) completes, a subsequent get() with no
intervening set returns T. -/
theorem tokenStore_set_then_get (st : LocalStorage) (t : String) :
    DefaultStorage.get (DefaultStorage.set st t) = some t :=
  get_set_eq st t

/-- C10: the result of checkUpdate depends only on the release and the
versionName; the versionCode argument is never read, so any two values
of it give the identical result. -/
theorem checkUpdate_ignores_versionCode (latestRelease : Release) (versionName : String)
    (c1 c2 : Option String) :
    checkUpdate latestRelease versionName c1 = checkUpdate latestRelease versionName c2 := rfl
